import Mathlib

/-!
Shallow embedding of the `slog` logging component (idflog.h / idflog.c).

The C code provides two parallel surfaces:
  * an instance API: a `struct slog` of configuration fields and function
    pointers, with methods `slog_set_print`, `slog_show_time`,
    `slog_set_log_callback`, per-level entry points and the dispatcher
    `slog_send_logs`;
  * a standalone API: static globals `print_enabled`, `show_time_enabled`,
    `log_callback` with free functions `idflog_set_print`, `idflog_show_time`,
    `idflog_set_callback`, per-level entry points and the dispatcher
    `send_logs`.

Modelling choices:
  * C strings are `List Char` (no NUL handling is needed: the code only
    builds strings with snprintf/vsnprintf and passes them around whole).
  * `idflog_level_t` is the underlying C integer of the enum, a `Nat`
    (the enum values are 0..5; the switch default covers everything else).
  * `snprintf(buf, cap, ...)` writes at most `cap - 1` characters: modelled
    by `snprintfTrunc cap`, which takes the first `cap - 1` characters of
    the fully composed string. `printf` performs no truncation.
  * The timestamp source `gettimeofday`-based `get_millis` is modelled as a
    `Clock`: a stream of timestamp values plus a counter of samples taken,
    so that "sampled exactly once" is observable.
  * The observable effects of a dispatcher call (callback invocation with
    its three arguments, console write with its text) are recorded as a
    list of `Event`s, in invocation order.
  * A callback pointer is `Option Nat` (NULL is `none`); the variadic
    `..._format` entry points take the already-expanded format result as a
    single string argument, to which the code applies its
    `vsnprintf(buffer, 256, ...)` bound.
-/

/-- C string, modelled as a list of characters. -/
abbrev CStr := List Char

/-- Coerce a Lean string literal to the `CStr` model. -/
def str (s : String) : CStr := s.toList

/-- Decimal rendering of an unsigned integer, as produced by the `%lu`
conversion of printf/snprintf. -/
def natToChars (n : Nat) : CStr := (Nat.repr n).toList

/-- `snprintf`/`vsnprintf` into a buffer of capacity `cap`: at most
`cap - 1` characters are written (plus the terminating NUL, which is not
part of the modelled string). Overflow is silent truncation. -/
def snprintfTrunc (cap : Nat) (s : CStr) : CStr := s.take (cap - 1)

/-- The level constants of `idflog_level_t` (C enum, underlying values). -/
def IDFLOG_DEBUG : Nat := 0

/-- Level constant `IDFLOG_INFO`. -/
def IDFLOG_INFO : Nat := 1

/-- Level constant `IDFLOG_ERROR`. -/
def IDFLOG_ERROR : Nat := 2

/-- Level constant `IDFLOG_VERBOSE`. -/
def IDFLOG_VERBOSE : Nat := 3

/-- Level constant `IDFLOG_WARNING`. -/
def IDFLOG_WARNING : Nat := 4

/-- Level constant `IDFLOG_WTF`. -/
def IDFLOG_WTF : Nat := 5

/-- `slog_level_name` (idflog.c): bracketed level tag used by the instance
surface; the switch default returns `"[UNKNOWN]"`. The C switch on the enum
value is the if-chain over the underlying integer. -/
def slog_level_name (level : Nat) : CStr :=
  if level = 0 then str "[DEBUG]"
  else if level = 1 then str "[INFO]"
  else if level = 2 then str "[ERROR]"
  else if level = 3 then str "[VERBOSE]"
  else if level = 4 then str "[WARNING]"
  else if level = 5 then str "[WTF]"
  else str "[UNKNOWN]"

/-- `get_level_name` (idflog.c): unbracketed level tag used by the
standalone surface; the switch default returns `"UNKNOWN"`. -/
def get_level_name (level : Nat) : CStr :=
  if level = 0 then str "DEBUG"
  else if level = 1 then str "INFO"
  else if level = 2 then str "ERROR"
  else if level = 3 then str "VERBOSE"
  else if level = 4 then str "WARNING"
  else if level = 5 then str "WTF"
  else str "UNKNOWN"

/-- Timestamp source: `get_millis` / `get_timestamp_ms` both read the wall
clock. Modelled as a stream of millisecond values with a counter of samples
taken so far, so each call consumes the next sample. -/
structure Clock where
  times : Nat → Nat
  idx : Nat

/-- One clock sample: returns the current value and advances the counter
(models one call of `gettimeofday`-backed `get_millis`). -/
def get_millis (c : Clock) : Nat × Clock :=
  (c.times c.idx, { c with idx := c.idx + 1 })

/-- Observable effects of a dispatcher call, in order of occurrence. -/
inductive Event where
  | cbCall (level : Nat) (timestamp : Nat) (message : CStr)
  | consoleWrite (text : CStr)
deriving DecidableEq

/-- Tags of the concrete static functions installed by `slog_init` as the
struct's function-pointer members. -/
inductive MethodImpl where
  | mSetPrint | mShowTime | mSetLogCallback
  | mD | mDFormat | mE | mEFormat | mI | mIFormat
  | mV | mVFormat | mW | mWFormat | mWtf | mWtfFormat
  | mLog | mLogFormat
deriving DecidableEq, Inhabited

/-- `struct slog` (idflog.h): configuration members `_print`, `_time`,
`logging_callback` (a nullable callback pointer) and the seventeen
function-pointer members. -/
structure slog_t where
  pPrint : Bool
  pTime : Bool
  logging_callback : Option Nat
  set_print : MethodImpl
  show_time : MethodImpl
  set_log_callback : MethodImpl
  d : MethodImpl
  d_format : MethodImpl
  e : MethodImpl
  e_format : MethodImpl
  i : MethodImpl
  i_format : MethodImpl
  v : MethodImpl
  v_format : MethodImpl
  w : MethodImpl
  w_format : MethodImpl
  wtf : MethodImpl
  wtf_format : MethodImpl
  log : MethodImpl
  log_format : MethodImpl
deriving DecidableEq, Inhabited

/-- `slog_set_print` (idflog.c): `self->_print = state;`. -/
def slog_set_print (self : slog_t) (state : Bool) : slog_t :=
  { self with pPrint := state }

/-- `slog_show_time` (idflog.c): `self->_time = state;`. -/
def slog_show_time (self : slog_t) (state : Bool) : slog_t :=
  { self with pTime := state }

/-- `slog_set_log_callback` (idflog.c): `self->logging_callback = callback;`. -/
def slog_set_log_callback (self : slog_t) (callback : Option Nat) : slog_t :=
  { self with logging_callback := callback }

/-- The line composed by `slog_send_logs` into its `char msg[512]`:
`snprintf(msg, 512, "%lu %s: %s\n", time, slog_level_name(level), message)`
when `_time` is set, `snprintf(msg, 512, "%s: %s\n", ...)` otherwise. -/
def slogFormatLine (showT : Bool) (time : Nat) (level : Nat) (message : CStr) : CStr :=
  if showT then
    snprintfTrunc 512
      (natToChars time ++ str " " ++ slog_level_name level ++ str ": " ++ message ++ str "\n")
  else
    snprintfTrunc 512 (slog_level_name level ++ str ": " ++ message ++ str "\n")

/-- `slog_send_logs` (idflog.c): samples the clock once, composes the line
into the 512-byte buffer, invokes the callback (if non-NULL) with
`(level, time, msg)` where `msg` is the composed line, then prints the same
line to the console if `_print` is set. Returns the ordered event trace and
the advanced clock. -/
def slog_send_logs (self : slog_t) (level : Nat) (message : CStr) (c : Clock) :
    List Event × Clock :=
  let tc := get_millis c
  let msg := slogFormatLine self.pTime tc.1 level message
  let cbEvents : List Event :=
    match self.logging_callback with
    | some _ => [Event.cbCall level tc.1 msg]
    | none => []
  let printEvents : List Event :=
    if self.pPrint then [Event.consoleWrite msg] else []
  (cbEvents ++ printEvents, tc.2)

/-- `slog_d` (idflog.c): plain debug message entry. -/
def slog_d (self : slog_t) (msg : CStr) (c : Clock) : List Event × Clock :=
  slog_send_logs self IDFLOG_DEBUG msg c

/-- `slog_d_format` (idflog.c): expands the format/arguments with
`vsnprintf(buffer, 256, ...)` and forwards; `expanded` is the full
expansion result before the buffer bound is applied. -/
def slog_d_format (self : slog_t) (expanded : CStr) (c : Clock) : List Event × Clock :=
  slog_send_logs self IDFLOG_DEBUG (snprintfTrunc 256 expanded) c

/-- `slog_i` (idflog.c): plain info message entry. -/
def slog_i (self : slog_t) (msg : CStr) (c : Clock) : List Event × Clock :=
  slog_send_logs self IDFLOG_INFO msg c

/-- `slog_log` (idflog.c): generic level-parameterized entry. -/
def slog_log (self : slog_t) (level : Nat) (msg : CStr) (c : Clock) : List Event × Clock :=
  slog_send_logs self level msg c

/-- `slog_log_format` (idflog.c): generic formatted entry, 256-byte
expansion buffer. -/
def slog_log_format (self : slog_t) (level : Nat) (expanded : CStr) (c : Clock) :
    List Event × Clock :=
  slog_send_logs self level (snprintfTrunc 256 expanded) c

/-- `slog_init` (idflog.c): sets `_print = true`, `_time = true`,
`logging_callback = NULL` and installs all seventeen method pointers. -/
def slog_init (slog_instance : slog_t) : slog_t :=
  { slog_instance with
    pPrint := true
    pTime := true
    logging_callback := none
    set_print := MethodImpl.mSetPrint
    show_time := MethodImpl.mShowTime
    set_log_callback := MethodImpl.mSetLogCallback
    d := MethodImpl.mD
    d_format := MethodImpl.mDFormat
    e := MethodImpl.mE
    e_format := MethodImpl.mEFormat
    i := MethodImpl.mI
    i_format := MethodImpl.mIFormat
    v := MethodImpl.mV
    v_format := MethodImpl.mVFormat
    w := MethodImpl.mW
    w_format := MethodImpl.mWFormat
    wtf := MethodImpl.mWtf
    wtf_format := MethodImpl.mWtfFormat
    log := MethodImpl.mLog
    log_format := MethodImpl.mLogFormat }

/-- The standalone surface's process-wide configuration: the static
variables `print_enabled`, `show_time_enabled`, `log_callback` of
idflog.c. -/
structure StandaloneState where
  print_enabled : Bool
  show_time_enabled : Bool
  log_callback : Option Nat
deriving DecidableEq

/-- The static initializers of idflog.c:
`print_enabled = true; show_time_enabled = true; log_callback = NULL;`
(these run once at program load, not on `idflog_init`). -/
def standaloneStaticInit : StandaloneState :=
  { print_enabled := true, show_time_enabled := true, log_callback := none }

/-- The whole process state the component touches: the global `slog`
instance plus the standalone static configuration. -/
structure ProcessState where
  gslog : slog_t
  standalone : StandaloneState
deriving DecidableEq

/-- `idflog_init` (idflog.c): calls `slog_init(&slog)` on the global
instance. It does not touch the standalone statics. (The trailing
`ESP_LOGI` banner goes to the platform logger and is not part of the
component's own sinks.) -/
def idflog_init (p : ProcessState) : ProcessState :=
  { p with gslog := slog_init p.gslog }

/-- `idflog_set_print` (idflog.c): `print_enabled = state;`. -/
def idflog_set_print (st : StandaloneState) (state : Bool) : StandaloneState :=
  { st with print_enabled := state }

/-- `idflog_show_time` (idflog.c): `show_time_enabled = state;`. -/
def idflog_show_time (st : StandaloneState) (state : Bool) : StandaloneState :=
  { st with show_time_enabled := state }

/-- `idflog_set_callback` (idflog.c): `log_callback = callback;`. -/
def idflog_set_callback (st : StandaloneState) (callback : Option Nat) : StandaloneState :=
  { st with log_callback := callback }

/-- The console line printed by the standalone `send_logs`:
`printf("[%lu] [%s] %s\n", timestamp, get_level_name(level), message)` when
`show_time_enabled`, `printf("[%s] %s\n", ...)` otherwise. `printf` does
not truncate. -/
def standaloneFormatLine (showT : Bool) (timestamp : Nat) (level : Nat) (message : CStr) : CStr :=
  if showT then
    str "[" ++ natToChars timestamp ++ str "] [" ++ get_level_name level ++ str "] "
      ++ message ++ str "\n"
  else
    str "[" ++ get_level_name level ++ str "] " ++ message ++ str "\n"

/-- `send_logs` (idflog.c, standalone): samples the clock once, invokes the
callback (if non-NULL) with `(level, timestamp, message)` — the raw message
body, not a rendered line — then, if `print_enabled`, prints the rendered
line to the console. -/
def send_logs (st : StandaloneState) (level : Nat) (message : CStr) (c : Clock) :
    List Event × Clock :=
  let tc := get_millis c
  let cbEvents : List Event :=
    match st.log_callback with
    | some _ => [Event.cbCall level tc.1 message]
    | none => []
  let printEvents : List Event :=
    if st.print_enabled then
      [Event.consoleWrite (standaloneFormatLine st.show_time_enabled tc.1 level message)]
    else []
  (cbEvents ++ printEvents, tc.2)

/-- `idflog_debug` (idflog.c): expands with `vsnprintf(buffer, 256, ...)`
and forwards to `send_logs` at level `IDFLOG_DEBUG`. -/
def idflog_debug (st : StandaloneState) (expanded : CStr) (c : Clock) : List Event × Clock :=
  send_logs st IDFLOG_DEBUG (snprintfTrunc 256 expanded) c

/-- `idflog_info` (idflog.c): formatted info entry of the standalone
surface. -/
def idflog_info (st : StandaloneState) (expanded : CStr) (c : Clock) : List Event × Clock :=
  send_logs st IDFLOG_INFO (snprintfTrunc 256 expanded) c

/-- `idflog_log` (idflog.c): generic formatted entry of the standalone
surface, 256-byte expansion buffer. -/
def idflog_log (st : StandaloneState) (level : Nat) (expanded : CStr) (c : Clock) :
    List Event × Clock :=
  send_logs st level (snprintfTrunc 256 expanded) c

/-- Recognizer for callback-invocation events. -/
def isCbEvent : Event → Bool
  | Event.cbCall _ _ _ => true
  | Event.consoleWrite _ => false

/-- Recognizer for console-write events. -/
def isConsoleEvent : Event → Bool
  | Event.cbCall _ _ _ => false
  | Event.consoleWrite _ => true

/-- Number of callback invocations in a trace. -/
def countCb (evs : List Event) : Nat := (evs.filter isCbEvent).length

/-- Number of console writes in a trace. -/
def countConsole (evs : List Event) : Nat := (evs.filter isConsoleEvent).length

/-- Equality of all seventeen function-pointer members of two `slog_t`
values (the non-configuration part of the struct). -/
def sameMethods (a b : slog_t) : Prop :=
  a.set_print = b.set_print ∧ a.show_time = b.show_time
    ∧ a.set_log_callback = b.set_log_callback
    ∧ a.d = b.d ∧ a.d_format = b.d_format
    ∧ a.e = b.e ∧ a.e_format = b.e_format
    ∧ a.i = b.i ∧ a.i_format = b.i_format
    ∧ a.v = b.v ∧ a.v_format = b.v_format
    ∧ a.w = b.w ∧ a.w_format = b.w_format
    ∧ a.wtf = b.wtf ∧ a.wtf_format = b.wtf_format
    ∧ a.log = b.log ∧ a.log_format = b.log_format

/-- A concrete millisecond clock whose every sample is 0, used for closed
evaluations. -/
def clock0 : Clock := { times := fun _ => 0, idx := 0 }

/-- A concrete instance with both sinks active: freshly initialized, then a
callback registered. -/
def slogBoth : slog_t := slog_set_log_callback (slog_init default) (some 7)

/-- A concrete standalone configuration with both sinks active. -/
def standaloneBoth : StandaloneState := idflog_set_callback standaloneStaticInit (some 7)

/-- A concrete instance with the callback sink only (print disabled). -/
def slogCbOnly : slog_t := slog_set_print slogBoth false

/-- A concrete standalone configuration with the callback sink only. -/
def standaloneCbOnly : StandaloneState := idflog_set_print standaloneBoth false

/-- The switch default of `slog_level_name`: every level value outside 0..5
yields the bracketed UNKNOWN tag. -/
lemma slog_level_name_default (n : Nat) (hn : 6 ≤ n) : slog_level_name n = str "[UNKNOWN]" := by
  unfold slog_level_name
  repeat rw [if_neg (by omega)]

/-- The switch default of `get_level_name`: every level value outside 0..5
yields the UNKNOWN tag. -/
lemma get_level_name_default (n : Nat) (hn : 6 ≤ n) : get_level_name n = str "UNKNOWN" := by
  unfold get_level_name
  repeat rw [if_neg (by omega)]

/-- The instance tag is always the standalone tag in brackets. -/
lemma slog_level_name_eq_brackets (level : Nat) :
    slog_level_name level = str "[" ++ get_level_name level ++ str "]" := by
  simp only [slog_level_name, get_level_name]
  split_ifs <;> decide

/-- The line composed by `slog_send_logs` never exceeds the 511 characters
the 512-byte buffer can hold. -/
lemma slogFormatLine_length_le (b : Bool) (t level : Nat) (message : CStr) :
    (slogFormatLine b t level message).length ≤ 511 := by
  cases b <;> simp [slogFormatLine, snprintfTrunc, List.length_take]

/-- C10: each configuration setter (`slog_set_print`, `slog_show_time`,
`slog_set_log_callback`; `idflog_set_print`, `idflog_show_time`,
`idflog_set_callback`) writes its own configuration field and leaves the
other two configuration fields — and, on the instance surface, all
seventeen method function pointers — unchanged. -/
theorem C10_setters_frame (self : slog_t) (st : StandaloneState) (b : Bool) (cb : Option Nat) :
    ((slog_set_print self b).pPrint = b
      ∧ (slog_set_print self b).pTime = self.pTime
      ∧ (slog_set_print self b).logging_callback = self.logging_callback
      ∧ sameMethods (slog_set_print self b) self)
    ∧ ((slog_show_time self b).pTime = b
      ∧ (slog_show_time self b).pPrint = self.pPrint
      ∧ (slog_show_time self b).logging_callback = self.logging_callback
      ∧ sameMethods (slog_show_time self b) self)
    ∧ ((slog_set_log_callback self cb).logging_callback = cb
      ∧ (slog_set_log_callback self cb).pPrint = self.pPrint
      ∧ (slog_set_log_callback self cb).pTime = self.pTime
      ∧ sameMethods (slog_set_log_callback self cb) self)
    ∧ ((idflog_set_print st b).print_enabled = b
      ∧ (idflog_set_print st b).show_time_enabled = st.show_time_enabled
      ∧ (idflog_set_print st b).log_callback = st.log_callback)
    ∧ ((idflog_show_time st b).show_time_enabled = b
      ∧ (idflog_show_time st b).print_enabled = st.print_enabled
      ∧ (idflog_show_time st b).log_callback = st.log_callback)
    ∧ ((idflog_set_callback st cb).log_callback = cb
      ∧ (idflog_set_callback st cb).print_enabled = st.print_enabled
      ∧ (idflog_set_callback st cb).show_time_enabled = st.show_time_enabled) := by
  refine ⟨⟨rfl, rfl, rfl, ?_⟩, ⟨rfl, rfl, rfl, ?_⟩, ⟨rfl, rfl, rfl, ?_⟩,
    ⟨rfl, rfl, rfl⟩, ⟨rfl, rfl, rfl⟩, ⟨rfl, rfl, rfl⟩⟩ <;>
    exact ⟨rfl, rfl, rfl, rfl, rfl, rfl, rfl, rfl, rfl, rfl, rfl, rfl, rfl, rfl, rfl, rfl, rfl⟩

/-- C2 (counterexample): `idflog_init` does not reset the standalone
configuration — after `idflog_set_print(false)`, a call of `idflog_init`
leaves the standalone `print_enabled` at `false`, not `true` as the claim
requires. -/
theorem C2_counterexample :
    (idflog_init
        ⟨default, idflog_set_print standaloneStaticInit false⟩).standalone.print_enabled
      = false := by decide

/-- C2 (amended): `slog_init` is idempotent and always yields exactly
{printEnabled: true, showTime: true, callback: none} for the instance it
initializes, regardless of prior state; `idflog_init` resets the global
`slog` instance in the same way and is idempotent, but it leaves the
standalone process-wide configuration unchanged — that configuration gets
its {true, true, none} defaults only from the static initializers. -/
theorem C2_init_amended (s : slog_t) (p : ProcessState) :
    (slog_init s).pPrint = true ∧ (slog_init s).pTime = true
    ∧ (slog_init s).logging_callback = none
    ∧ slog_init (slog_init s) = slog_init s
    ∧ (idflog_init p).gslog = slog_init p.gslog
    ∧ (idflog_init p).standalone = p.standalone
    ∧ idflog_init (idflog_init p) = idflog_init p
    ∧ standaloneStaticInit
      = { print_enabled := true, show_time_enabled := true, log_callback := none } :=
  ⟨rfl, rfl, rfl, rfl, rfl, rfl, rfl, rfl⟩

/-- C5: the level-tag mapping is total — Debug/Info/Error/Verbose/Warning/
Wtf map to their literal tags on both surfaces, any level value outside the
enumerated set maps to "UNKNOWN" ("[UNKNOWN]" on the instance surface), and
the generic log entry points of both surfaces still render a console line
(via the tag function) rather than failing. -/
theorem C5_level_tags (n : Nat) (hn : 6 ≤ n) (msg : CStr) (c : Clock)
    (st : StandaloneState) (self : slog_t)
    (hp : st.print_enabled = true) (hp2 : self.pPrint = true) :
    (slog_level_name IDFLOG_DEBUG = str "[DEBUG]" ∧ get_level_name IDFLOG_DEBUG = str "DEBUG")
    ∧ (slog_level_name IDFLOG_INFO = str "[INFO]" ∧ get_level_name IDFLOG_INFO = str "INFO")
    ∧ (slog_level_name IDFLOG_ERROR = str "[ERROR]" ∧ get_level_name IDFLOG_ERROR = str "ERROR")
    ∧ (slog_level_name IDFLOG_VERBOSE = str "[VERBOSE]"
        ∧ get_level_name IDFLOG_VERBOSE = str "VERBOSE")
    ∧ (slog_level_name IDFLOG_WARNING = str "[WARNING]"
        ∧ get_level_name IDFLOG_WARNING = str "WARNING")
    ∧ (slog_level_name IDFLOG_WTF = str "[WTF]" ∧ get_level_name IDFLOG_WTF = str "WTF")
    ∧ (slog_level_name n = str "[UNKNOWN]" ∧ get_level_name n = str "UNKNOWN")
    ∧ Event.consoleWrite
        (standaloneFormatLine st.show_time_enabled (c.times c.idx) n (snprintfTrunc 256 msg))
        ∈ (idflog_log st n msg c).1
    ∧ Event.consoleWrite (slogFormatLine self.pTime (c.times c.idx) n msg)
        ∈ (slog_log self n msg c).1 := by
  refine ⟨⟨rfl, rfl⟩, ⟨rfl, rfl⟩, ⟨rfl, rfl⟩, ⟨rfl, rfl⟩, ⟨rfl, rfl⟩, ⟨rfl, rfl⟩,
    ⟨slog_level_name_default n hn, get_level_name_default n hn⟩, ?_, ?_⟩
  · simp [idflog_log, send_logs, get_millis, hp]
  · simp [slog_log, slog_send_logs, get_millis, hp2]

/-- C5 witness: the hypotheses hold at level 9 with a fresh configuration,
and the out-of-range level 9 renders the UNKNOWN tag. -/
theorem C5_level_tags_witness :
    6 ≤ 9 ∧ standaloneStaticInit.print_enabled = true ∧ (slog_init default).pPrint = true
      ∧ (slog_level_name 9 = str "[UNKNOWN]" ∧ get_level_name 9 = str "UNKNOWN") :=
  ⟨by decide, rfl, rfl,
    (C5_level_tags 9 (by decide) (str "boom") clock0 standaloneStaticInit (slog_init default)
        rfl rfl).2.2.2.2.2.2.1⟩

/-- C6: the two sinks are gated independently on both surfaces — with print
disabled and a callback registered, one log call yields exactly one
callback invocation and no console write; with print enabled and no
callback, exactly one console write and no callback invocation. -/
theorem C6_sink_gating (self : slog_t) (st : StandaloneState) (level : Nat)
    (message : CStr) (c : Clock) :
    (self.pPrint = false → self.logging_callback.isSome →
      countCb (slog_send_logs self level message c).1 = 1
        ∧ countConsole (slog_send_logs self level message c).1 = 0)
    ∧ (self.pPrint = true → self.logging_callback = none →
      countCb (slog_send_logs self level message c).1 = 0
        ∧ countConsole (slog_send_logs self level message c).1 = 1)
    ∧ (st.print_enabled = false → st.log_callback.isSome →
      countCb (send_logs st level message c).1 = 1
        ∧ countConsole (send_logs st level message c).1 = 0)
    ∧ (st.print_enabled = true → st.log_callback = none →
      countCb (send_logs st level message c).1 = 0
        ∧ countConsole (send_logs st level message c).1 = 1) := by
  refine ⟨fun h1 h2 => ?_, fun h1 h2 => ?_, fun h1 h2 => ?_, fun h1 h2 => ?_⟩
  · obtain ⟨v, hv⟩ := Option.isSome_iff_exists.mp h2
    simp [slog_send_logs, get_millis, countCb, countConsole, h1, hv, isCbEvent, isConsoleEvent]
  · simp [slog_send_logs, get_millis, countCb, countConsole, h1, h2, isCbEvent, isConsoleEvent]
  · obtain ⟨v, hv⟩ := Option.isSome_iff_exists.mp h2
    simp [send_logs, get_millis, countCb, countConsole, h1, hv, isCbEvent, isConsoleEvent]
  · simp [send_logs, get_millis, countCb, countConsole, h1, h2, isCbEvent, isConsoleEvent]

/-- C6 witness: with print disabled and a callback registered, one instance
log call gives one callback invocation and no console write; with print
enabled and no callback, one standalone call gives one console write. -/
theorem C6_sink_gating_witness :
    slogCbOnly.pPrint = false ∧ slogCbOnly.logging_callback.isSome
      ∧ standaloneStaticInit.print_enabled = true ∧ standaloneStaticInit.log_callback = none
      ∧ (countCb (slog_send_logs slogCbOnly 1 (str "X") clock0).1 = 1
          ∧ countConsole (slog_send_logs slogCbOnly 1 (str "X") clock0).1 = 0)
      ∧ (countCb (send_logs standaloneStaticInit 1 (str "X") clock0).1 = 0
          ∧ countConsole (send_logs standaloneStaticInit 1 (str "X") clock0).1 = 1) :=
  ⟨rfl, by decide, rfl, rfl,
    (C6_sink_gating slogCbOnly standaloneStaticInit 1 (str "X") clock0).1 rfl (by decide),
    (C6_sink_gating slogCbOnly standaloneStaticInit 1 (str "X") clock0).2.2.2 rfl rfl⟩

/-- C7: whenever both sinks are active, the trace of a single log call is
exactly a callback invocation followed by the console write — the callback
runs before the console write, on both surfaces. -/
theorem C7_callback_before_console (self : slog_t) (st : StandaloneState) (level : Nat)
    (message : CStr) (c : Clock)
    (hp : self.pPrint = true) (hc : self.logging_callback.isSome)
    (hp2 : st.print_enabled = true) (hc2 : st.log_callback.isSome) :
    (∃ t m1 m2, (slog_send_logs self level message c).1
        = [Event.cbCall level t m1, Event.consoleWrite m2])
    ∧ (∃ t m1 m2, (send_logs st level message c).1
        = [Event.cbCall level t m1, Event.consoleWrite m2]) := by
  obtain ⟨v, hv⟩ := Option.isSome_iff_exists.mp hc
  obtain ⟨w, hw⟩ := Option.isSome_iff_exists.mp hc2
  constructor
  · exact ⟨c.times c.idx, slogFormatLine self.pTime (c.times c.idx) level message,
      slogFormatLine self.pTime (c.times c.idx) level message,
      by simp [slog_send_logs, get_millis, hp, hv]⟩
  · exact ⟨c.times c.idx, message,
      standaloneFormatLine st.show_time_enabled (c.times c.idx) level message,
      by simp [send_logs, get_millis, hp2, hw]⟩

/-- C7 witness: both sinks active on both surfaces at a concrete call. -/
theorem C7_callback_before_console_witness :
    slogBoth.pPrint = true ∧ slogBoth.logging_callback.isSome
      ∧ standaloneBoth.print_enabled = true ∧ standaloneBoth.log_callback.isSome
      ∧ (∃ t m1 m2, (slog_send_logs slogBoth 1 (str "X") clock0).1
          = [Event.cbCall 1 t m1, Event.consoleWrite m2]) :=
  ⟨rfl, by decide, rfl, by decide,
    (C7_callback_before_console slogBoth standaloneBoth 1 (str "X") clock0
        rfl (by decide) rfl (by decide)).1⟩

/-- C9: each log call samples the timestamp exactly once (the clock
advances by one); the callback's second argument is that single sample —
also when timestamps are not shown — and the console line of the same call
is rendered from the very same sample, on both surfaces. -/
theorem C9_single_timestamp (self : slog_t) (st : StandaloneState) (level : Nat)
    (message : CStr) (c : Clock)
    (hc : self.logging_callback.isSome) (hc2 : st.log_callback.isSome) :
    (slog_send_logs self level message c).2.idx = c.idx + 1
    ∧ (send_logs st level message c).2.idx = c.idx + 1
    ∧ (slog_send_logs self level message c).1.head?
        = some (Event.cbCall level (c.times c.idx)
            (slogFormatLine self.pTime (c.times c.idx) level message))
    ∧ (self.pPrint = true →
        Event.consoleWrite (slogFormatLine self.pTime (c.times c.idx) level message)
          ∈ (slog_send_logs self level message c).1)
    ∧ (send_logs st level message c).1.head?
        = some (Event.cbCall level (c.times c.idx) message)
    ∧ (st.print_enabled = true →
        Event.consoleWrite
            (standaloneFormatLine st.show_time_enabled (c.times c.idx) level message)
          ∈ (send_logs st level message c).1) := by
  obtain ⟨v, hv⟩ := Option.isSome_iff_exists.mp hc
  obtain ⟨w, hw⟩ := Option.isSome_iff_exists.mp hc2
  refine ⟨rfl, rfl, ?_, fun hp => ?_, ?_, fun hp2 => ?_⟩
  · simp [slog_send_logs, get_millis, hv]
  · simp [slog_send_logs, get_millis, hv, hp]
  · simp [send_logs, get_millis, hw]
  · simp [send_logs, get_millis, hw, hp2]

/-- C9 witness: at a concrete call with a callback registered on both
surfaces, the clock advances by exactly one sample. -/
theorem C9_single_timestamp_witness :
    slogBoth.logging_callback.isSome ∧ standaloneBoth.log_callback.isSome
      ∧ (slog_send_logs slogBoth 1 (str "X") clock0).2.idx = clock0.idx + 1 :=
  ⟨by decide, by decide,
    (C9_single_timestamp slogBoth standaloneBoth 1 (str "X") clock0
        (by decide) (by decide)).1⟩

/-- C1 (counterexample): the two surfaces are not functionally identical
apart from the render-format strings — at a concrete standalone call with
a callback registered, the callback receives the raw message "X" while the
console sink receives the rendered line "[0] [INFO] X\n"; the standalone
callback does not receive the formatted line the console sink receives. -/
theorem C1_counterexample :
    (send_logs standaloneBoth 1 (str "X") clock0).1
        = [Event.cbCall 1 0 (str "X"), Event.consoleWrite (str "[0] [INFO] X\n")]
      ∧ str "X" ≠ str "[0] [INFO] X\n" := by decide

/-- C1 (amended): on the instance surface a log call invokes a registered
callback with (level, timestampMillis, renderedText) where renderedText is
exactly the formatted line the console sink receives; on the standalone
surface the callback is instead invoked with the raw message body, and only
the console sink receives the rendered line. -/
theorem C1_callback_payload (self : slog_t) (st : StandaloneState) (level : Nat)
    (message : CStr) (c : Clock)
    (hp : self.pPrint = true) (hc : self.logging_callback.isSome)
    (hp2 : st.print_enabled = true) (hc2 : st.log_callback.isSome) :
    (slog_send_logs self level message c).1
      = [Event.cbCall level (c.times c.idx)
            (slogFormatLine self.pTime (c.times c.idx) level message),
         Event.consoleWrite (slogFormatLine self.pTime (c.times c.idx) level message)]
    ∧ (send_logs st level message c).1
      = [Event.cbCall level (c.times c.idx) message,
         Event.consoleWrite
           (standaloneFormatLine st.show_time_enabled (c.times c.idx) level message)] := by
  obtain ⟨v, hv⟩ := Option.isSome_iff_exists.mp hc
  obtain ⟨w, hw⟩ := Option.isSome_iff_exists.mp hc2
  constructor
  · simp [slog_send_logs, get_millis, hp, hv]
  · simp [send_logs, get_millis, hp2, hw]

/-- C1 witness: at a concrete instance call with both sinks active, the
callback and the console receive the same rendered line. -/
theorem C1_callback_payload_witness :
    slogBoth.pPrint = true ∧ slogBoth.logging_callback.isSome
      ∧ standaloneBoth.print_enabled = true ∧ standaloneBoth.log_callback.isSome
      ∧ (slog_send_logs slogBoth 1 (str "X") clock0).1
        = [Event.cbCall 1 (clock0.times clock0.idx)
              (slogFormatLine slogBoth.pTime (clock0.times clock0.idx) 1 (str "X")),
           Event.consoleWrite
              (slogFormatLine slogBoth.pTime (clock0.times clock0.idx) 1 (str "X"))] :=
  ⟨rfl, by decide, rfl, by decide,
    (C1_callback_payload slogBoth standaloneBoth 1 (str "X") clock0
        rfl (by decide) rfl (by decide)).1⟩

/-- C8: formatted entry points bound the expanded message body by the
256-unit buffer and the instance dispatcher bounds the composed line by the
512-unit buffer; overflow is silent truncation (the kept part is a prefix),
never an error and never output beyond the buffer's capacity. -/
theorem C8_buffer_truncation (expanded message : CStr) (self : slog_t)
    (st : StandaloneState) (level t : Nat) (b : Bool) (c : Clock) :
    (snprintfTrunc 256 expanded).length ≤ 255
    ∧ snprintfTrunc 256 expanded ++ expanded.drop 255 = expanded
    ∧ (slogFormatLine b t level message).length ≤ 511
    ∧ slog_d_format self expanded c
        = slog_send_logs self IDFLOG_DEBUG (snprintfTrunc 256 expanded) c
    ∧ slog_log_format self level expanded c
        = slog_send_logs self level (snprintfTrunc 256 expanded) c
    ∧ idflog_log st level expanded c = send_logs st level (snprintfTrunc 256 expanded) c
    ∧ (∀ txt, Event.consoleWrite txt ∈ (slog_send_logs self level message c).1 →
        txt.length ≤ 511) := by
  refine ⟨?_, List.take_append_drop 255 expanded, slogFormatLine_length_le b t level message,
    rfl, rfl, rfl, ?_⟩
  · simp [snprintfTrunc, List.length_take]
  · intro txt hmem
    cases hcb : self.logging_callback <;> cases hpp : self.pPrint <;>
      simp [slog_send_logs, get_millis, hcb, hpp] at hmem <;>
      (subst hmem; exact slogFormatLine_length_le _ _ _ _)

/-- C8 witness: the body buffer bound at a concrete expansion, via the
theorem at concrete inputs. -/
theorem C8_buffer_truncation_witness :
    (snprintfTrunc 256 (str "hello")).length ≤ 255 :=
  (C8_buffer_truncation (str "hello") (str "X") slogBoth standaloneStaticInit 1 0 true clock0).1

set_option maxRecDepth 4000 in
/-- C4 (counterexample): the claimed instance rendering template fails for
messages that overflow the 512-unit line buffer — at a 600-character
message the composed line is truncated and differs from the template. -/
theorem C4_counterexample :
    slogFormatLine true 0 IDFLOG_DEBUG (List.replicate 600 'b')
      ≠ natToChars 0 ++ str " " ++ slog_level_name IDFLOG_DEBUG ++ str ": "
          ++ List.replicate 600 'b' ++ str "\n" := by decide

/-- C4 (amended): whenever the composed line fits the instance API's
512-unit buffer, the instance surface renders
"<timestampMillis> [<LEVEL_TAG>]: <message>\n" with showTime=true and
"[<LEVEL_TAG>]: <message>\n" with showTime=false; the standalone surface
renders "[<timestampMillis>] [<LEVEL_TAG>] <message>\n" and
"[<LEVEL_TAG>] <message>\n" (no truncation of the composed line); in
particular, logging "X" at Info with showTime=false yields exactly
"[INFO]: X\n" on the instance surface and "[INFO] X\n" on the standalone
surface. -/
theorem C4_render_formats (level t : Nat) (message : CStr) (st : StandaloneState) (c : Clock)
    (hp : st.print_enabled = true) :
    ((natToChars t ++ str " " ++ slog_level_name level ++ str ": "
          ++ message ++ str "\n").length ≤ 511 →
      slogFormatLine true t level message
        = natToChars t ++ str " " ++ slog_level_name level ++ str ": " ++ message ++ str "\n")
    ∧ ((slog_level_name level ++ str ": " ++ message ++ str "\n").length ≤ 511 →
      slogFormatLine false t level message
        = slog_level_name level ++ str ": " ++ message ++ str "\n")
    ∧ (st.show_time_enabled = true →
        Event.consoleWrite (str "[" ++ natToChars (c.times c.idx) ++ str "] ["
            ++ get_level_name level ++ str "] " ++ message ++ str "\n")
          ∈ (send_logs st level message c).1)
    ∧ (st.show_time_enabled = false →
        Event.consoleWrite (str "[" ++ get_level_name level ++ str "] " ++ message ++ str "\n")
          ∈ (send_logs st level message c).1)
    ∧ (slog_send_logs (slog_show_time (slog_init default) false) IDFLOG_INFO (str "X") clock0).1
      = [Event.consoleWrite (str "[INFO]: X\n")]
    ∧ (send_logs (idflog_show_time standaloneStaticInit false) IDFLOG_INFO (str "X") clock0).1
      = [Event.consoleWrite (str "[INFO] X\n")] := by
  refine ⟨fun hfit => ?_, fun hfit2 => ?_, fun ht => ?_, fun ht => ?_, by decide, by decide⟩
  · simpa [slogFormatLine, snprintfTrunc] using List.take_of_length_le hfit
  · simpa [slogFormatLine, snprintfTrunc] using List.take_of_length_le hfit2
  · simp [send_logs, get_millis, hp, ht, standaloneFormatLine]
  · simp [send_logs, get_millis, hp, ht, standaloneFormatLine]

/-- C4 witness: the fit hypotheses hold for the message "X" at Info, and
the instance template equality follows from the theorem there. -/
theorem C4_render_formats_witness :
    (natToChars 0 ++ str " " ++ slog_level_name 1 ++ str ": "
        ++ str "X" ++ str "\n").length ≤ 511
      ∧ standaloneStaticInit.print_enabled = true
      ∧ slogFormatLine true 0 1 (str "X")
        = natToChars 0 ++ str " " ++ slog_level_name 1 ++ str ": " ++ str "X" ++ str "\n" :=
  ⟨by decide, rfl,
    (C4_render_formats 1 0 (str "X") standaloneStaticInit clock0 rfl).1 (by decide)⟩

set_option maxRecDepth 4000 in
/-- C3 (counterexample): with a 600-character message the instance line is
truncated by the 512-unit buffer and no longer ends with the message
followed by a line terminator, refuting the claim's unrestricted
quantification over messages. -/
theorem C3_counterexample :
    ¬ ∃ p : CStr, slogFormatLine true 0 IDFLOG_INFO (List.replicate 600 'a')
        = p ++ (List.replicate 600 'a' ++ str "\n") := by
  rintro ⟨p, h⟩
  have hlen := congrArg List.length h
  rw [List.length_append, List.length_append] at hlen
  have h1 : (slogFormatLine true 0 IDFLOG_INFO (List.replicate 600 'a')).length = 511 := by
    decide
  have h2 : (List.replicate 600 'a' : CStr).length = 600 := by decide
  have h3 : (str "\n").length = 1 := by decide
  rw [h1, h2, h3] at hlen
  omega

/-- C3 (amended): with showTime=true, on the instance surface every line
whose untruncated form fits the 512-unit buffer contains the literal level
tag and ends with the message followed by a single line terminator; on the
standalone surface this holds for every message (the console line is
composed without truncation), and with print enabled that line is what the
console sink receives. -/
theorem C3_tag_and_terminator (level t : Nat) (message : CStr) (st : StandaloneState) (c : Clock)
    (hp : st.print_enabled = true) (ht : st.show_time_enabled = true) :
    ((natToChars t ++ str " " ++ slog_level_name level ++ str ": "
          ++ message ++ str "\n").length ≤ 511 →
      (∃ a b, slogFormatLine true t level message = a ++ get_level_name level ++ b)
      ∧ (∃ p, slogFormatLine true t level message = p ++ (message ++ str "\n")))
    ∧ (∃ a b, standaloneFormatLine true (c.times c.idx) level message
        = a ++ get_level_name level ++ b)
    ∧ (∃ p, standaloneFormatLine true (c.times c.idx) level message
        = p ++ (message ++ str "\n"))
    ∧ Event.consoleWrite (standaloneFormatLine true (c.times c.idx) level message)
        ∈ (send_logs st level message c).1 := by
  refine ⟨fun hfit => ?_,
    ⟨str "[" ++ natToChars (c.times c.idx) ++ str "] [", str "] " ++ message ++ str "\n", ?_⟩,
    ⟨str "[" ++ natToChars (c.times c.idx) ++ str "] [" ++ get_level_name level ++ str "] ", ?_⟩,
    ?_⟩
  · have h1 : slogFormatLine true t level message
        = natToChars t ++ str " " ++ slog_level_name level ++ str ": " ++ message ++ str "\n" := by
      simpa [slogFormatLine, snprintfTrunc] using List.take_of_length_le hfit
    refine ⟨⟨natToChars t ++ str " " ++ str "[", str "]" ++ str ": " ++ message ++ str "\n", ?_⟩,
      ⟨natToChars t ++ str " " ++ slog_level_name level ++ str ": ", ?_⟩⟩
    · rw [h1, slog_level_name_eq_brackets]
      simp [List.append_assoc]
    · rw [h1]
      simp [List.append_assoc]
  · simp [standaloneFormatLine, List.append_assoc]
  · simp [standaloneFormatLine, List.append_assoc]
  · simp [send_logs, get_millis, hp, ht]

/-- C3 witness: the hypotheses hold for the message "X" at Info, and the
instance line contains the literal tag there. -/
theorem C3_tag_and_terminator_witness :
    (natToChars 0 ++ str " " ++ slog_level_name 1 ++ str ": "
        ++ str "X" ++ str "\n").length ≤ 511
      ∧ standaloneStaticInit.print_enabled = true
      ∧ standaloneStaticInit.show_time_enabled = true
      ∧ (∃ a b, slogFormatLine true 0 1 (str "X") = a ++ get_level_name 1 ++ b) :=
  ⟨by decide, rfl, rfl,
    ((C3_tag_and_terminator 1 0 (str "X") standaloneStaticInit clock0 rfl rfl).1
        (by decide)).1⟩
